import Mathlib

/-!
# Verification of the real-estate backend's property query engine

Shallow embedding of `src/main.py` (the `list_properties` and `get_property`
route handlers) and `src/schemas.py` (the pydantic validation models).

Conventions of the embedding:
* Python `float` values (prices, baths, coordinates, fees) are modelled as `Rat`;
  Python `int` as `Int` / `Nat`.
* Python `None`-able parameters are `Option` values; Python string truthiness
  (`if s:`) is `s ≠ None ∧ s ≠ ""`.
* The MongoDB filter dictionary built by `list_properties` is modelled by the
  `FilterDict` structure, one field per possible dictionary key.
* MongoDB itself is an external collaborator: its matching/sorting/limiting of
  the constructed query is modelled from the spec (see `matchesFilter`,
  `sortDocs`, `list_properties_exec`).
* A raw stored document, as seen by the identifier-normalization code
  (`item["id"] = str(item.pop("_id"))`), is an insertion-ordered key/value
  association list `MDoc`, mirroring a Python `dict`.
-/

/-- ASCII lower-casing of one character, modelling the case folding performed
by a case-insensitive (`$options: "i"`) pattern match. -/
def lowerChar (c : Char) : Char :=
  if 'A' ≤ c && c ≤ 'Z' then Char.ofNat (c.toNat + 32) else c

/-- Does `needle` occur as a contiguous run inside `hay`? -/
def charsContain : List Char → List Char → Bool
  | needle, [] => needle.isEmpty
  | needle, c :: t => needle.isPrefixOf (c :: t) || charsContain needle t

/-- `pat` occurs in `s` as a case-insensitive substring (Bool version). -/
def containsCI (pat s : String) : Bool :=
  charsContain (pat.data.map lowerChar) (s.data.map lowerChar)

/-- `pat` occurs in `s` as a case-insensitive substring (Prop version):
the lower-cased characters of `s` contain the lower-cased characters of
`pat` as a contiguous run. -/
def ciSubstring (pat s : String) : Prop :=
  ∃ pre post, s.data.map lowerChar = pre ++ pat.data.map lowerChar ++ post

/-- The optional query parameters of `GET /api/properties`
(`src/main.py`, lines 41-52), with their FastAPI defaults. -/
structure ListParams where
  q : Option String := none
  status : Option String := none
  min_price : Option Rat := none
  max_price : Option Rat := none
  beds : Option Int := none
  baths : Option Rat := none
  property_type : Option String := none
  city : Option String := none
  sort : String := "newest"
  limit : Nat := 24
deriving DecidableEq

/-- Python truthiness of an `Optional[str]`: `None` and `""` are falsy. -/
def strPresent : Option String → Bool
  | none => false
  | some s => !(s == "")

/-- One `{field: {"$regex": pattern, "$options": options}}` clause of the
`$or` list built for the `q` parameter (`src/main.py`, lines 74-77). -/
structure RegexClause where
  field : String
  pattern : String
  options : String
deriving DecidableEq

/-- The `{"$gte": ..., "$lte": ...}` range placed under the `price` key
(`src/main.py`, lines 66-70). -/
structure PriceRange where
  gte : Option Rat
  lte : Option Rat
deriving DecidableEq

/-- The MongoDB filter dictionary assembled by `list_properties`
(`src/main.py`, lines 54-77): one field per possible key of `filter_dict`.
`location_city` stands for the dotted key `"location.city"`, `orClauses`
for the `"$or"` key. -/
structure FilterDict where
  status : Option String := none
  beds : Option Int := none
  baths : Option Rat := none
  property_type : Option String := none
  location_city : Option String := none
  price : Option PriceRange := none
  orClauses : Option (List RegexClause) := none
deriving DecidableEq

/-- The filter-construction logic of `list_properties`
(`src/main.py`, lines 54-77), translated clause by clause:
`if status:` / `if property_type:` / `if city:` / `if q:` test Python
truthiness, `if beds is not None:` / `if baths is not None:` /
`if min_price is not None or max_price is not None:` test only for `None`. -/
def build_filter (p : ListParams) : FilterDict :=
  { status := if strPresent p.status then p.status else none
    beds := p.beds
    baths := p.baths
    property_type := if strPresent p.property_type then p.property_type else none
    location_city := if strPresent p.city then p.city else none
    price :=
      if p.min_price.isSome || p.max_price.isSome then
        some { gte := p.min_price, lte := p.max_price }
      else none
    orClauses :=
      match p.q with
      | none => none
      | some s =>
        if s == "" then none
        else some [⟨"title", s, "i"⟩, ⟨"description", s, "i"⟩] }

/-- The sort-specification logic of `list_properties`
(`src/main.py`, lines 78-85): a list of (key, direction) pairs exactly as
passed to the store's `sort`. -/
def sort_spec (sort : String) : List (String × Int) :=
  if sort == "price_asc" then [("price", 1)]
  else if sort == "price_desc" then [("price", -1)]
  else [("_id", -1)]

/-- A stored property document, restricted to the fields the query engine
reads: the store-assigned identifier `oid` (`_id`), and the schema fields
that filters and sorts touch. `city` is the nested `location.city` value;
optional fields mirror `Optional` fields of the `Property` schema. -/
structure PropDoc where
  oid : Nat
  title : String
  status : String
  price : Rat
  beds : Option Int := none
  baths : Option Rat := none
  property_type : Option String := none
  city : String
  description : Option String := none
deriving DecidableEq

/-- Modelled from the spec: the store's evaluation of one `$regex` clause
with `$options: "i"` — the document matches when the named field is a
string containing the pattern as a case-insensitive substring; a missing
field does not match. -/
def matchesRegexClause (c : RegexClause) (d : PropDoc) : Bool :=
  let target : Option String :=
    if c.field == "title" then some d.title
    else if c.field == "description" then d.description
    else none
  match target with
  | none => false
  | some s => if c.options == "i" then containsCI c.pattern s else charsContain c.pattern.data s.data

/-- Store evaluation of the `status` key of the filter. -/
def statusOk (f : FilterDict) (d : PropDoc) : Bool :=
  match f.status with
  | none => true
  | some s => d.status == s

/-- Store evaluation of the `beds` key (`{"$gte": b}`); a document whose
`beds` field is missing/null does not match. -/
def bedsOk (f : FilterDict) (d : PropDoc) : Bool :=
  match f.beds with
  | none => true
  | some b => match d.beds with
    | none => false
    | some x => decide (b ≤ x)

/-- Store evaluation of the `baths` key (`{"$gte": b}`). -/
def bathsOk (f : FilterDict) (d : PropDoc) : Bool :=
  match f.baths with
  | none => true
  | some b => match d.baths with
    | none => false
    | some x => decide (b ≤ x)

/-- Store evaluation of the `property_type` equality key. -/
def ptypeOk (f : FilterDict) (d : PropDoc) : Bool :=
  match f.property_type with
  | none => true
  | some t => d.property_type == some t

/-- Store evaluation of the `location.city` equality key. -/
def cityOk (f : FilterDict) (d : PropDoc) : Bool :=
  match f.location_city with
  | none => true
  | some c => d.city == c

/-- Store evaluation of the `price` range key: inclusive `$gte`/`$lte`. -/
def priceOk (f : FilterDict) (d : PropDoc) : Bool :=
  match f.price with
  | none => true
  | some r =>
    (match r.gte with | none => true | some m => decide (m ≤ d.price)) &&
    (match r.lte with | none => true | some m => decide (d.price ≤ m))

/-- Store evaluation of the `$or` key: at least one clause matches. -/
def qOk (f : FilterDict) (d : PropDoc) : Bool :=
  match f.orClauses with
  | none => true
  | some cs => cs.any (fun c => matchesRegexClause c d)

/-- Modelled from the spec: the document store's matching of the constructed
filter dictionary against a stored document — the conjunction of its
per-key constraints (an empty dictionary matches every document). -/
def matchesFilter (f : FilterDict) (d : PropDoc) : Bool :=
  statusOk f d && bedsOk f d && bathsOk f d && ptypeOk f d &&
    cityOk f d && priceOk f d && qOk f d

/-- The sort value of a document under a sort key: the `price` field for
key `"price"`, the store-assigned identifier for `"_id"`. -/
def fieldOrd (k : String) (d : PropDoc) : Rat :=
  if k == "price" then d.price else (d.oid : Rat)

/-- Modelled from the spec: the comparator induced by a `(key, direction)`
sort specification — direction `1` is ascending, `-1` descending. -/
def docLe (spec : List (String × Int)) (a b : PropDoc) : Bool :=
  match spec with
  | [] => true
  | (k, dir) :: _ =>
    if dir == 1 then decide (fieldOrd k a ≤ fieldOrd k b)
    else decide (fieldOrd k b ≤ fieldOrd k a)

/-- Modelled from the spec: the store's `sort` operation — a stable sort of
the matched documents by the given sort specification. -/
def sortDocs (spec : List (String × Int)) (l : List PropDoc) : List PropDoc :=
  l.mergeSort (docLe spec)

/-- The find/sort/limit/count pipeline of `list_properties`
(`src/main.py`, lines 88-92), over a store modelled as the list of stored
property documents: returns the page of items (before identifier
normalization) and the `total` count, which is computed from the filter
alone (`count_documents(filter_dict)`). -/
def list_properties_exec (store : List PropDoc) (p : ListParams) :
    List PropDoc × Nat :=
  let f := build_filter p
  let matched := store.filter (fun d => matchesFilter f d)
  ((sortDocs (sort_spec p.sort) matched).take p.limit, matched.length)

/-- A value stored in a raw document, as seen by the identifier
normalization code: strings, numbers, the store's internal ObjectId key
(modelled as an opaque `Nat`-indexed key), or null. -/
inductive MVal where
  | mstr : String → MVal
  | mnum : Rat → MVal
  | mint : Int → MVal
  | moid : Nat → MVal
  | mnull : MVal
deriving DecidableEq

/-- A raw stored document as a Python `dict`: an insertion-ordered
association list of field name to value (keys unique in practice). -/
abbrev MDoc : Type := List (String × MVal)

/-- Model of Python `str(...)` on the values normalization applies it to;
on the store's ObjectId key it is the key's (injective) string rendering. -/
def pyStr : MVal → String
  | .mstr s => s
  | .mnum q => toString q
  | .mint i => toString i
  | .moid n => toString n
  | .mnull => "None"

/-- `d[k]` lookup in a Python dict modelled as an association list. -/
def dlookup (k : String) : MDoc → Option MVal
  | [] => none
  | (k₁, v) :: t => if k₁ == k then some v else dlookup k t

/-- Removal of key `k` from a Python dict (the removal half of `d.pop(k)`). -/
def dremove (k : String) : MDoc → MDoc
  | [] => []
  | (k₁, v) :: t => if k₁ == k then dremove k t else (k₁, v) :: dremove k t

/-- `d[k] = v` on a Python dict: replace in place when the key exists,
append otherwise. -/
def dset (k : String) (v : MVal) : MDoc → MDoc
  | [] => [(k, v)]
  | (k₁, v₁) :: t => if k₁ == k then (k, v) :: t else (k₁, v₁) :: dset k v t

/-- The identifier normalization `item["id"] = str(item.pop("_id"))`
(`src/main.py`, lines 94-95 and 107): `pop` of a missing `"_id"` key raises
`KeyError`, modelled as `none`; otherwise the `"_id"` entry is removed and
an `"id"` entry holding its string rendering is set. -/
def normalize_doc (d : MDoc) : Option MDoc :=
  match dlookup "_id" d with
  | none => none
  | some v => some (dset "id" (.mstr (pyStr v)) (dremove "_id" d))

/-- The normalization loop over a result page (`src/main.py`, lines 94-95):
each item is normalized in turn; the first `KeyError` aborts the request. -/
def normalize_items : List MDoc → Option (List MDoc)
  | [] => some []
  | d :: ds =>
    match normalize_doc d with
    | none => none
    | some d₁ =>
      match normalize_items ds with
      | none => none
      | some t => some (d₁ :: t)

/-- Is `c` a hexadecimal digit? -/
def isHexChar (c : Char) : Bool :=
  c.isDigit || ('a' ≤ c && c ≤ 'f') || ('A' ≤ c && c ≤ 'F')

/-- Numeric value of a hexadecimal digit. -/
def hexCharVal (c : Char) : Nat :=
  if c.isDigit then c.toNat - '0'.toNat
  else if 'a' ≤ c && c ≤ 'f' then c.toNat - 'a'.toNat + 10
  else c.toNat - 'A'.toNat + 10

/-- Modelled from the spec: `bson.ObjectId(property_id)` — the store's
native key format. A 24-character hexadecimal string parses to the key it
denotes; any other string raises `InvalidId`, modelled as `none`. `bson`
is an external library, not part of `src/`. -/
def parseObjectId (s : String) : Option Nat :=
  if s.length == 24 && s.data.all isHexChar then
    some (s.data.foldl (fun acc c => 16 * acc + hexCharVal c) 0)
  else none

/-- A Python exception raised inside the `try` block of `get_property`. -/
inductive PyExc where
  | invalidId
  | httpNotFound
  | keyError
deriving DecidableEq

/-- The HTTP outcome of `GET /api/properties/{property_id}`. -/
inductive GetOutcome where
  | found : MDoc → GetOutcome
  | notFound : GetOutcome
  | serverError : GetOutcome
deriving DecidableEq

/-- The body of the `try` block of `get_property`
(`src/main.py`, lines 103-108): parse the id (`InvalidId` on failure),
`find_one` by key (the code raises `HTTPException(404)` when no document
is found — still inside the `try`), then normalize the document. -/
def get_property_body (store : List MDoc) (pid : String) : Except PyExc MDoc :=
  match parseObjectId pid with
  | none => .error .invalidId
  | some oid =>
    match store.find? (fun d => dlookup "_id" d == some (.moid oid)) with
    | none => .error .httpNotFound
    | some doc =>
      match normalize_doc doc with
      | none => .error .keyError
      | some d => .ok d

/-- The `get_property` route handler (`src/main.py`, lines 100-110): its
`except Exception` clause catches every exception raised in the body —
including the `HTTPException(404)` the body itself raises — and re-raises
it as a 500 server error (`HTTPException(status_code=500, ...)`). -/
def get_property (store : List MDoc) (pid : String) : GetOutcome :=
  match get_property_body store pid with
  | .ok d => .found d
  | .error _ => .serverError

/-- The `Location` schema (`src/schemas.py`, lines 25-32), restricted to
its validated fields. -/
structure LocationIn where
  lat : Option Rat := none
  lng : Option Rat := none
deriving DecidableEq

/-- The `Financial` schema (`src/schemas.py`, lines 40-42). -/
structure FinancialIn where
  hoa_fees : Option Rat := none
  taxes : Option Rat := none
deriving DecidableEq

/-- The `Property` schema (`src/schemas.py`, lines 44-64), restricted to
its range-validated fields. -/
structure PropertyIn where
  price : Rat
  location : LocationIn
  beds : Option Int := none
  baths : Option Rat := none
  area_sqft : Option Int := none
  lot_size : Option Rat := none
  financial : FinancialIn := {}
deriving DecidableEq

/-- Pydantic validation of `Location`: `lat` has `ge=-90, le=90`, `lng`
has `ge=-180, le=180`; `None` passes. -/
def locationValid (l : LocationIn) : Bool :=
  (match l.lat with
   | none => true
   | some v => decide (-90 ≤ v) && decide (v ≤ 90)) &&
  (match l.lng with
   | none => true
   | some v => decide (-180 ≤ v) && decide (v ≤ 180))

/-- Pydantic validation of `Financial`: `hoa_fees` and `taxes` have `ge=0`. -/
def financialValid (f : FinancialIn) : Bool :=
  (match f.hoa_fees with | none => true | some v => decide (0 ≤ v)) &&
  (match f.taxes with | none => true | some v => decide (0 ≤ v))

/-- Pydantic validation of `Property`: `price` has `ge=0`; `beds`, `baths`,
`area_sqft`, `lot_size` have `ge=0` when present; nested `Financial` and
`Location` validate recursively. A request failing any of these is
rejected at the request-binding boundary, before storage. -/
def propertyValid (p : PropertyIn) : Bool :=
  decide (0 ≤ p.price) &&
  (match p.beds with | none => true | some v => decide (0 ≤ v)) &&
  (match p.baths with | none => true | some v => decide (0 ≤ v)) &&
  (match p.area_sqft with | none => true | some v => decide (0 ≤ v)) &&
  (match p.lot_size with | none => true | some v => decide (0 ≤ v)) &&
  financialValid p.financial &&
  locationValid p.location

/-- Spec-side characterization (for refinement comparison): the meaning the
spec gives to the composed filter — one independent conjunctive constraint
per present parameter, nothing for absent parameters, where the string
parameters count as present only when non-empty. -/
def spec_matches (p : ListParams) (d : PropDoc) : Prop :=
  (∀ s, p.status = some s → s ≠ "" → d.status = s) ∧
  (∀ b, p.beds = some b → ∃ x, d.beds = some x ∧ b ≤ x) ∧
  (∀ b, p.baths = some b → ∃ x, d.baths = some x ∧ b ≤ x) ∧
  (∀ t, p.property_type = some t → t ≠ "" → d.property_type = some t) ∧
  (∀ c, p.city = some c → c ≠ "" → d.city = c) ∧
  (∀ m, p.min_price = some m → m ≤ d.price) ∧
  (∀ m, p.max_price = some m → d.price ≤ m) ∧
  (∀ s, p.q = some s → s ≠ "" →
    (ciSubstring s d.title ∨ ∃ t, d.description = some t ∧ ciSubstring s t))

/-- A stored document together with the raw mapping the store returns for
it: the creation endpoint `create_property` (`src/main.py`, lines 28-34)
stores a validated `Property`; validation happens at request binding,
before the handler runs, so an input failing `propertyValid` is rejected
and never stored. -/
def create_property (p : PropertyIn) : Option PropertyIn :=
  if propertyValid p then some p else none

theorem charsPrefix_iff (n h : List Char) :
    n.isPrefixOf h = true ↔ ∃ t, h = n ++ t := by
  rw [List.isPrefixOf_iff_prefix]
  constructor
  · rintro ⟨t, rfl⟩
    exact ⟨t, rfl⟩
  · rintro ⟨t, rfl⟩
    exact ⟨t, rfl⟩

theorem charsContain_iff (n h : List Char) :
    charsContain n h = true ↔ ∃ pre post, h = pre ++ n ++ post := by
  induction h with
  | nil =>
    simp only [charsContain, List.isEmpty_iff]
    constructor
    · rintro rfl
      exact ⟨[], [], rfl⟩
    · rintro ⟨pre, post, hp⟩
      rcases List.append_eq_nil.mp hp.symm with ⟨hp₁, hp₂⟩
      rcases List.append_eq_nil.mp hp₁ with ⟨-, hn⟩
      exact hn
  | cons c t ih =>
    simp only [charsContain, Bool.or_eq_true, charsPrefix_iff, ih]
    constructor
    · rintro (⟨t₁, ht⟩ | ⟨pre, post, hp⟩)
      · exact ⟨[], t₁, by simp [ht]⟩
      · exact ⟨c :: pre, post, by simp [hp]⟩
    · rintro ⟨pre, post, hp⟩
      rcases pre with _ | ⟨c₁, pre₁⟩
      · exact Or.inl ⟨post, by simpa using hp⟩
      · have hp' : c = c₁ ∧ t = pre₁ ++ n ++ post := by
          simpa using hp
        exact Or.inr ⟨pre₁, post, hp'.2⟩

theorem containsCI_iff (pat s : String) :
    containsCI pat s = true ↔ ciSubstring pat s := by
  unfold containsCI ciSubstring
  exact charsContain_iff _ _

theorem dlookup_dset_self (k : String) (v : MVal) (d : MDoc) :
    dlookup k (dset k v d) = some v := by
  induction d with
  | nil => simp [dset, dlookup]
  | cons hd t ih =>
    obtain ⟨k₁, v₁⟩ := hd
    by_cases hk : k₁ = k
    · subst hk
      simp [dset, dlookup]
    · simp [dset, dlookup, hk, ih]

theorem dlookup_dset_ne (k k₁ : String) (v : MVal) (d : MDoc) (hne : k₁ ≠ k) :
    dlookup k (dset k₁ v d) = dlookup k d := by
  induction d with
  | nil => simp [dset, dlookup, hne]
  | cons hd t ih =>
    obtain ⟨k₂, v₂⟩ := hd
    by_cases hk : k₂ = k₁
    · subst hk
      simp [dset, dlookup, hne]
    · simp [dset, dlookup, hk, ih]

theorem dlookup_dremove_self (k : String) (d : MDoc) :
    dlookup k (dremove k d) = none := by
  induction d with
  | nil => simp [dremove, dlookup]
  | cons hd t ih =>
    obtain ⟨k₁, v₁⟩ := hd
    by_cases hk : k₁ = k
    · subst hk
      simp [dremove, dlookup, ih]
    · simp [dremove, dlookup, hk, ih]

theorem dlookup_dremove_ne (k k₁ : String) (d : MDoc) (hne : k₁ ≠ k) :
    dlookup k (dremove k₁ d) = dlookup k d := by
  induction d with
  | nil => simp [dremove, dlookup]
  | cons hd t ih =>
    obtain ⟨k₂, v₂⟩ := hd
    by_cases hk : k₂ = k₁
    · subst hk
      simp [dremove, dlookup, hne, ih]
    · simp [dremove, dlookup, hk, ih]

theorem statusOk_build_iff (p : ListParams) (d : PropDoc) :
    statusOk (build_filter p) d = true ↔
      (∀ s, p.status = some s → s ≠ "" → d.status = s) := by
  rcases hs : p.status with _ | s
  · simp [statusOk, build_filter, strPresent, hs]
  · by_cases he : s = ""
    · subst he
      simp [statusOk, build_filter, strPresent, hs]
    · simp [statusOk, build_filter, strPresent, hs, he]

theorem bedsOk_build_iff (p : ListParams) (d : PropDoc) :
    bedsOk (build_filter p) d = true ↔
      (∀ b, p.beds = some b → ∃ x, d.beds = some x ∧ b ≤ x) := by
  rcases hb : p.beds with _ | b
  · simp [bedsOk, build_filter, hb]
  · rcases hx : d.beds with _ | x
    · simp [bedsOk, build_filter, hb, hx]
    · simp [bedsOk, build_filter, hb, hx]

theorem bathsOk_build_iff (p : ListParams) (d : PropDoc) :
    bathsOk (build_filter p) d = true ↔
      (∀ b, p.baths = some b → ∃ x, d.baths = some x ∧ b ≤ x) := by
  rcases hb : p.baths with _ | b
  · simp [bathsOk, build_filter, hb]
  · rcases hx : d.baths with _ | x
    · simp [bathsOk, build_filter, hb, hx]
    · simp [bathsOk, build_filter, hb, hx]

theorem ptypeOk_build_iff (p : ListParams) (d : PropDoc) :
    ptypeOk (build_filter p) d = true ↔
      (∀ t, p.property_type = some t → t ≠ "" → d.property_type = some t) := by
  rcases ht : p.property_type with _ | t
  · simp [ptypeOk, build_filter, strPresent, ht]
  · by_cases he : t = ""
    · subst he
      simp [ptypeOk, build_filter, strPresent, ht]
    · simp [ptypeOk, build_filter, strPresent, ht, he]

theorem cityOk_build_iff (p : ListParams) (d : PropDoc) :
    cityOk (build_filter p) d = true ↔
      (∀ c, p.city = some c → c ≠ "" → d.city = c) := by
  rcases hc : p.city with _ | c
  · simp [cityOk, build_filter, strPresent, hc]
  · by_cases he : c = ""
    · subst he
      simp [cityOk, build_filter, strPresent, hc]
    · simp [cityOk, build_filter, strPresent, hc, he]

theorem priceOk_build_iff (p : ListParams) (d : PropDoc) :
    priceOk (build_filter p) d = true ↔
      ((∀ m, p.min_price = some m → m ≤ d.price) ∧
       (∀ m, p.max_price = some m → d.price ≤ m)) := by
  rcases hm : p.min_price with _ | m <;> rcases hM : p.max_price with _ | M <;>
    simp [priceOk, build_filter, hm, hM]

theorem qOk_build_iff (p : ListParams) (d : PropDoc) :
    qOk (build_filter p) d = true ↔
      (∀ s, p.q = some s → s ≠ "" →
        (ciSubstring s d.title ∨ ∃ t, d.description = some t ∧ ciSubstring s t)) := by
  rcases hq : p.q with _ | s
  · simp [qOk, build_filter, hq]
  · by_cases he : s = ""
    · subst he
      simp [qOk, build_filter, hq]
    · rcases hd : d.description with _ | t
      · simp [qOk, build_filter, hq, he, matchesRegexClause, hd, containsCI_iff]
      · simp [qOk, build_filter, hq, he, matchesRegexClause, hd, containsCI_iff]

theorem matches_build_iff (p : ListParams) (d : PropDoc) :
    matchesFilter (build_filter p) d = true ↔ spec_matches p d := by
  simp only [matchesFilter, Bool.and_eq_true, spec_matches,
    statusOk_build_iff, bedsOk_build_iff, bathsOk_build_iff, ptypeOk_build_iff,
    cityOk_build_iff, priceOk_build_iff, qOk_build_iff]
  tauto

theorem docLe_trans (spec : List (String × Int)) :
    ∀ a b c, docLe spec a b = true → docLe spec b c = true →
      docLe spec a c = true := by
  intro a b c hab hbc
  rcases spec with _ | ⟨⟨k, dir⟩, rest⟩
  · simp [docLe]
  · by_cases hdir : (dir == 1) = true
    · simp [docLe, hdir] at hab hbc ⊢
      exact le_trans hab hbc
    · simp [docLe, Bool.eq_false_iff.mpr hdir] at hab hbc ⊢
      exact le_trans hbc hab

theorem docLe_total (spec : List (String × Int)) :
    ∀ a b, (docLe spec a b || docLe spec b a) = true := by
  intro a b
  rcases spec with _ | ⟨⟨k, dir⟩, rest⟩
  · simp [docLe]
  · by_cases hdir : (dir == 1) = true
    · simp [docLe, hdir]
      exact le_total _ _
    · simp [docLe, Bool.eq_false_iff.mpr hdir]
      exact le_total _ _

theorem sortDocs_pairwise (spec : List (String × Int)) (l : List PropDoc) :
    List.Pairwise (fun a b => docLe spec a b = true) (sortDocs spec l) :=
  List.sorted_mergeSort (docLe_trans spec) (docLe_total spec) l

theorem sortDocs_length (spec : List (String × Int)) (l : List PropDoc) :
    (sortDocs spec l).length = l.length :=
  (List.mergeSort_perm l (docLe spec)).length_eq

theorem build_filter_erase_q (p : ListParams) :
    build_filter { p with q := none } =
      { build_filter p with orClauses := none } := rfl

theorem matchesFilter_without_or (f : FilterDict) (d : PropDoc) :
    matchesFilter f d =
      (matchesFilter { f with orClauses := none } d && qOk f d) := by
  have hq : qOk { f with orClauses := none } d = true := rfl
  simp only [matchesFilter]
  have hs : statusOk { f with orClauses := none } d = statusOk f d := rfl
  have hb : bedsOk { f with orClauses := none } d = bedsOk f d := rfl
  have hb2 : bathsOk { f with orClauses := none } d = bathsOk f d := rfl
  have hp : ptypeOk { f with orClauses := none } d = ptypeOk f d := rfl
  have hc : cityOk { f with orClauses := none } d = cityOk f d := rfl
  have hpr : priceOk { f with orClauses := none } d = priceOk f d := rfl
  rw [hs, hb, hb2, hp, hc, hpr, hq]
  cases statusOk f d <;> cases bedsOk f d <;> cases bathsOk f d <;>
    cases ptypeOk f d <;> cases cityOk f d <;> cases priceOk f d <;>
    cases qOk f d <;> rfl

/-- C4: the listing filter is the conjunction (AND) of one independent
constraint per present parameter, absent parameters contributing no
constraint at all; with no parameters given, the filter is empty and
matches every document, the sort is the `newest` one (descending by the
store-assigned identifier), and the limit is 24. -/
theorem C4_filter_conjunction (p : ListParams) (d : PropDoc) :
    (matchesFilter (build_filter p) d = true ↔ spec_matches p d) ∧
    build_filter {} = ({} : FilterDict) ∧
    (∀ e : PropDoc, matchesFilter (build_filter {}) e = true) ∧
    sort_spec ({} : ListParams).sort = [("_id", -1)] ∧
    ({} : ListParams).limit = 24 := by
  refine ⟨matches_build_iff p d, rfl, fun e => rfl, ?_, rfl⟩
  decide

/-- C10: the string parameters (`q`, `status`, `property_type`, `city`)
contribute a constraint only when non-empty — the empty string acts
exactly like an absent parameter — while `beds` and `baths` contribute
their inclusive lower-bound constraint whenever supplied, including 0. -/
theorem C10_param_presence (p : ListParams) :
    build_filter { p with q := some "" } = build_filter { p with q := none } ∧
    build_filter { p with status := some "" } =
      build_filter { p with status := none } ∧
    build_filter { p with property_type := some "" } =
      build_filter { p with property_type := none } ∧
    build_filter { p with city := some "" } =
      build_filter { p with city := none } ∧
    (∀ b : Int, (build_filter { p with beds := some b }).beds = some b) ∧
    (∀ b : Rat, (build_filter { p with baths := some b }).baths = some b) ∧
    (build_filter { p with beds := some 0 }).beds = some 0 := by
  exact ⟨rfl, rfl, rfl, rfl, fun b => rfl, fun b => rfl, rfl⟩

/-- C6: the sort parameter produces exactly one of three sort keys —
`price_asc` ascending by price, `price_desc` descending by price, and
every other value (including `newest`, the default, and unrecognized
strings) descending by the store-assigned identifier — and the store's
sort then orders the page accordingly, with no error in any case. -/
theorem C6_sort_rule (s : String) (l : List PropDoc) :
    (s = "price_asc" → sort_spec s = [("price", 1)]) ∧
    (s = "price_desc" → sort_spec s = [("price", -1)]) ∧
    (s ≠ "price_asc" → s ≠ "price_desc" → sort_spec s = [("_id", -1)]) ∧
    List.Pairwise (fun a b : PropDoc => a.price ≤ b.price)
      (sortDocs (sort_spec "price_asc") l) ∧
    List.Pairwise (fun a b : PropDoc => b.price ≤ a.price)
      (sortDocs (sort_spec "price_desc") l) ∧
    (s ≠ "price_asc" → s ≠ "price_desc" →
      List.Pairwise (fun a b : PropDoc => b.oid ≤ a.oid)
        (sortDocs (sort_spec s) l)) := by
  have hspec : ∀ s₁ : String, s₁ ≠ "price_asc" → s₁ ≠ "price_desc" →
      sort_spec s₁ = [("_id", -1)] := by
    intro s₁ h1 h2
    simp [sort_spec, h1, h2]
  refine ⟨?_, ?_, hspec s, ?_, ?_, ?_⟩
  · rintro rfl
    rfl
  · rintro rfl
    rfl
  · have h := sortDocs_pairwise (sort_spec "price_asc") l
    refine h.imp ?_
    intro a b hab
    have heq : sort_spec "price_asc" = [("price", 1)] := rfl
    rw [heq] at hab
    simpa [docLe, fieldOrd] using hab
  · have h := sortDocs_pairwise (sort_spec "price_desc") l
    refine h.imp ?_
    intro a b hab
    have heq : sort_spec "price_desc" = [("price", -1)] := rfl
    rw [heq] at hab
    simpa [docLe, fieldOrd] using hab
  · intro h1 h2
    rw [hspec s h1 h2]
    have h := sortDocs_pairwise [("_id", -1)] l
    refine h.imp ?_
    intro a b hab
    simp [docLe, fieldOrd, Nat.cast_le] at hab
    exact hab

/-- C6 witness: an unrecognized sort value such as `"bogus"` falls back to
the `newest` sort key, without error. -/
theorem C6_sort_rule_witness : sort_spec "bogus" = [("_id", -1)] :=
  (C6_sort_rule "bogus" []).2.2.1 (by decide) (by decide)

/-- C7: the `total` returned by the listing is the count of stored
documents matching the filter alone — unaffected by `limit` and `sort` —
and the returned page holds at most `limit` items, never more than
`total`. -/
theorem C7_total_count (store : List PropDoc) (p : ListParams) :
    (list_properties_exec store p).2 =
      (store.filter (fun d => matchesFilter (build_filter p) d)).length ∧
    (∀ n s, (list_properties_exec store { p with limit := n, sort := s }).2 =
      (list_properties_exec store p).2) ∧
    (list_properties_exec store p).1.length ≤ p.limit ∧
    (list_properties_exec store p).1.length ≤
      (list_properties_exec store p).2 := by
  refine ⟨rfl, fun n s => rfl, ?_, ?_⟩
  · simp only [list_properties_exec, List.length_take]
    exact inf_le_left
  · simp only [list_properties_exec, List.length_take]
    exact le_trans inf_le_right (le_of_eq (sortDocs_length _ _))

/-- C3: a non-empty `q` contributes exactly one disjunctive `$or`
sub-constraint over `title` and `description` (case-insensitive pattern
clauses), the sub-constraint holds iff the title or the description
contains `q` as a case-insensitive substring, and it is conjoined (AND)
with all other constraints of the filter. -/
theorem C3_q_text_search (p : ListParams) (d : PropDoc) (qs : String)
    (hq : p.q = some qs) (hne : qs ≠ "") :
    (build_filter p).orClauses =
      some [⟨"title", qs, "i"⟩, ⟨"description", qs, "i"⟩] ∧
    (qOk (build_filter p) d = true ↔
      (ciSubstring qs d.title ∨ ∃ t, d.description = some t ∧ ciSubstring qs t)) ∧
    matchesFilter (build_filter p) d =
      (matchesFilter (build_filter { p with q := none }) d &&
        qOk (build_filter p) d) := by
  refine ⟨?_, ?_, ?_⟩
  · simp [build_filter, hq, hne]
  · rw [qOk_build_iff]
    constructor
    · intro h
      exact h qs hq hne
    · intro h s hs hne₁
      rw [hq] at hs
      injection hs with hs
      subst hs
      exact h
  · rw [build_filter_erase_q]
    exact matchesFilter_without_or (build_filter p) d

/-- C3 witness: `q = "pool"` together with a status filter, against a
document whose description contains "POOL". -/
theorem C3_q_text_search_witness :
    (build_filter { q := some "pool", status := some "For Sale" }).orClauses =
      some [⟨"title", "pool", "i"⟩, ⟨"description", "pool", "i"⟩] :=
  (C3_q_text_search { q := some "pool", status := some "For Sale" }
    { oid := 1, title := "Cozy cottage", status := "For Sale", price := 100,
      city := "Austin", description := some "Has a POOL and garden" }
    "pool" rfl (by decide)).1

/-- C5: `min_price`/`max_price` compose into a single inclusive range
constraint on `price` (either bound independently optional, no constraint
when both absent); inverted bounds (`min_price > max_price`) are still
constructed and the resulting filter matches no document. -/
theorem C5_price_range (p : ListParams) (d : PropDoc) :
    ((p.min_price = none ∧ p.max_price = none) →
      (build_filter p).price = none) ∧
    ((p.min_price.isSome ∨ p.max_price.isSome) →
      (build_filter p).price =
        some { gte := p.min_price, lte := p.max_price }) ∧
    (priceOk (build_filter p) d = true ↔
      ((∀ m, p.min_price = some m → m ≤ d.price) ∧
       (∀ m, p.max_price = some m → d.price ≤ m))) ∧
    (∀ m M, p.min_price = some m → p.max_price = some M → M < m →
      matchesFilter (build_filter p) d = false) := by
  refine ⟨?_, ?_, priceOk_build_iff p d, ?_⟩
  · rintro ⟨h1, h2⟩
    simp [build_filter, h1, h2]
  · intro h
    have hsome : (p.min_price.isSome || p.max_price.isSome) = true := by
      rcases h with h | h <;> simp [h]
    simp [build_filter, hsome]
  · intro m M hm hM hlt
    have hpo : priceOk (build_filter p) d = false := by
      have hnot : ¬ (m ≤ d.price ∧ d.price ≤ M) := by
        rintro ⟨h1, h2⟩
        exact absurd (le_trans h1 h2) (not_le.mpr hlt)
      simp only [priceOk, build_filter, hm, hM]
      simp only [Option.isSome_some, Bool.true_or, if_true]
      rw [Bool.and_eq_false_iff]
      by_cases h1 : m ≤ d.price
      · right
        simp only [decide_eq_false_iff_not]
        exact fun h2 => hnot ⟨h1, h2⟩
      · left
        simpa using h1
    simp [matchesFilter, hpo]

/-- C5 witness: `min_price = 500 > max_price = 100` still builds the range
filter, and a document priced 300 does not match. -/
theorem C5_price_range_witness :
    matchesFilter
      (build_filter { min_price := some 500, max_price := some 100 })
      { oid := 2, title := "T", status := "For Sale", price := 300,
        city := "X" } = false :=
  (C5_price_range { min_price := some 500, max_price := some 100 }
    { oid := 2, title := "T", status := "For Sale", price := 300,
      city := "X" }).2.2.2 500 100 rfl rfl (by decide)

/-- C2 counterexample: re-applying normalization to an already-normalized
mapping (no internal `"_id"` key) raises `KeyError` (modelled as `none`) —
it neither succeeds nor leaves the mapping unchanged. -/
theorem C2_renormalize_counterexample :
    normalize_doc [("id", MVal.mstr "7"), ("title", MVal.mstr "Villa")] = none ∧
    (normalize_doc [("id", MVal.mstr "7"), ("title", MVal.mstr "Villa")] ==
      some [("id", MVal.mstr "7"), ("title", MVal.mstr "Villa")]) = false := by
  decide

/-- C2 (amended): applying the result normalization to a mapping in which
the internal key field is absent raises an error — `item.pop("_id")` with
no default raises `KeyError` — rather than acting as a no-op. -/
theorem C2_renormalize_errors (d : MDoc) (h : dlookup "_id" d = none) :
    normalize_doc d = none := by
  simp [normalize_doc, h]

/-- C2 witness: the amended claim at a concrete already-normalized
mapping. -/
theorem C2_renormalize_errors_witness :
    normalize_doc [("id", MVal.mstr "8")] = none :=
  C2_renormalize_errors [("id", MVal.mstr "8")] (by decide)

/-- C8: normalizing a raw document whose internal `"_id"` key holds `v`
yields the same mapping with the internal key removed and an `"id"` key
added holding the string rendering of `v`; the listing page applies
exactly this transformation to each item in turn. -/
theorem C8_normalize (d : MDoc) (v : MVal) (h : dlookup "_id" d = some v) :
    ∃ d₁, normalize_doc d = some d₁ ∧
      dlookup "_id" d₁ = none ∧
      dlookup "id" d₁ = some (MVal.mstr (pyStr v)) ∧
      (∀ k, k ≠ "_id" → k ≠ "id" → dlookup k d₁ = dlookup k d) ∧
      (∀ ds, normalize_items (d :: ds) =
        (normalize_items ds).map (fun t => d₁ :: t)) := by
  have hd : normalize_doc d =
      some (dset "id" (.mstr (pyStr v)) (dremove "_id" d)) := by
    simp [normalize_doc, h]
  refine ⟨dset "id" (.mstr (pyStr v)) (dremove "_id" d), hd, ?_, ?_, ?_, ?_⟩
  · rw [dlookup_dset_ne _ _ _ _ (by decide)]
    exact dlookup_dremove_self _ _
  · exact dlookup_dset_self _ _ _
  · intro k hk1 hk2
    rw [dlookup_dset_ne _ _ _ _ (fun he => hk2 he.symm)]
    exact dlookup_dremove_ne _ _ _ (fun he => hk1 he.symm)
  · intro ds
    simp only [normalize_items, hd]
    cases normalize_items ds <;> rfl

/-- C8 witness: normalization succeeds on a concrete raw document holding
the internal key. -/
theorem C8_normalize_witness :
    (normalize_doc [("_id", MVal.moid 7), ("title", MVal.mstr "Casa")]).isSome
      = true := by
  obtain ⟨d₁, hd, -, -, -, -⟩ :=
    C8_normalize [("_id", MVal.moid 7), ("title", MVal.mstr "Casa")]
      (MVal.moid 7) rfl
  rw [hd]
  rfl

/-- C1: `get_property` evaluated at a syntactically invalid identifier and
at a well-formed but absent identifier yields a 500 server error in both
cases — the handler's `except Exception` catches the `InvalidId` raised by
`ObjectId(...)` and the `HTTPException(404)` the body itself raises, and
re-raises them as `HTTPException(500)` — so the "not found" client error
is never produced, for any store and any identifier. -/
theorem C1_not_found_conflated :
    get_property [[("_id", MVal.moid 1), ("title", MVal.mstr "Casa")]]
      "not-a-valid-objectid" = GetOutcome.serverError ∧
    get_property [[("_id", MVal.moid 1), ("title", MVal.mstr "Casa")]]
      "ffffffffffffffffffffffff" = GetOutcome.serverError ∧
    (∀ store pid, (get_property store pid == GetOutcome.notFound) = false) := by
  refine ⟨by decide, by decide, ?_⟩
  intro store pid
  unfold get_property
  cases get_property_body store pid <;> rfl

/-- C9: pydantic validation accepts a property exactly when `price ≥ 0`,
the optional numeric fields (`beds`, `baths`, `area_sqft`, `lot_size`,
`hoa_fees`, `taxes`) are ≥ 0 when present, and latitude/longitude lie in
[-90, 90] / [-180, 180] when present; an input violating any bound is
rejected before storage. -/
theorem C9_validation_invariants (p : PropertyIn) :
    (propertyValid p = true ↔
      (0 ≤ p.price ∧
       (∀ b, p.beds = some b → 0 ≤ b) ∧
       (∀ b, p.baths = some b → 0 ≤ b) ∧
       (∀ a, p.area_sqft = some a → 0 ≤ a) ∧
       (∀ l, p.lot_size = some l → 0 ≤ l) ∧
       (∀ v, p.financial.hoa_fees = some v → 0 ≤ v) ∧
       (∀ v, p.financial.taxes = some v → 0 ≤ v) ∧
       (∀ v, p.location.lat = some v → -90 ≤ v ∧ v ≤ 90) ∧
       (∀ v, p.location.lng = some v → -180 ≤ v ∧ v ≤ 180))) ∧
    (propertyValid p = false → create_property p = none) := by
  refine ⟨?_, ?_⟩
  swap
  · intro h
    simp [create_property, h]
  constructor
  · intro h
    simp only [propertyValid, financialValid, locationValid,
      Bool.and_eq_true, decide_eq_true_eq] at h
    obtain ⟨⟨⟨⟨⟨⟨h1, h2⟩, h3⟩, h4⟩, h5⟩, h6, h7⟩, h8, h9⟩ := h
    refine ⟨h1, ?_, ?_, ?_, ?_, ?_, ?_, ?_, ?_⟩
    · intro b hb
      rw [hb] at h2
      simpa using h2
    · intro b hb
      rw [hb] at h3
      simpa using h3
    · intro a ha
      rw [ha] at h4
      simpa using h4
    · intro l hl
      rw [hl] at h5
      simpa using h5
    · intro v hv
      rw [hv] at h6
      simpa using h6
    · intro v hv
      rw [hv] at h7
      simpa using h7
    · intro v hv
      rw [hv] at h8
      simpa using h8
    · intro v hv
      rw [hv] at h9
      simpa using h9
  · intro h
    obtain ⟨h1, h2, h3, h4, h5, h6, h7, h8, h9⟩ := h
    simp only [propertyValid, financialValid, locationValid,
      Bool.and_eq_true, decide_eq_true_eq]
    refine ⟨⟨⟨⟨⟨⟨h1, ?_⟩, ?_⟩, ?_⟩, ?_⟩, ?_, ?_⟩, ?_, ?_⟩
    · cases hb : p.beds with
      | none => simp
      | some b => simpa using h2 b hb
    · cases hb : p.baths with
      | none => simp
      | some b => simpa using h3 b hb
    · cases ha : p.area_sqft with
      | none => simp
      | some a => simpa using h4 a ha
    · cases hl : p.lot_size with
      | none => simp
      | some l => simpa using h5 l hl
    · cases hv : p.financial.hoa_fees with
      | none => simp
      | some v => simpa using h6 v hv
    · cases hv : p.financial.taxes with
      | none => simp
      | some v => simpa using h7 v hv
    · cases hv : p.location.lat with
      | none => simp
      | some v => simpa using h8 v hv
    · cases hv : p.location.lng with
      | none => simp
      | some v => simpa using h9 v hv

/-- C9 witness: a negative price is rejected before storage. -/
theorem C9_validation_invariants_witness :
    create_property { price := -5, location := {} } = none :=
  (C9_validation_invariants { price := -5, location := {} }).2 (by decide)
